import Mathlib

set_option maxRecDepth 100000

/-!
Verification of the `knf` typed configuration store of the `ek` repository.

The implementation file of the package is not present in the source tree (only its
test suite `src/knf/knf_test.go` is), so the definitions below are modelled
from the repository specification (`spec.md`, sections 3, 4 and 7), with the
behaviour pinned wherever the test suite exercises it.  Machine strings are
Lean `String`s, Go `int` is `Int`, Go `float64` is modelled as `Rat` (every
value occurring in the data of the package is an exact decimal), `os.FileMode` is
`Nat`, and the nil-able `*Config` receiver is `Option Config`.
-/

namespace Knf

/-- The left-brace character, written by code point to keep it out of string
literals. -/
def lbrace : Char := Char.ofNat 123

/-- The right-brace character. -/
def rbrace : Char := Char.ofNat 125

/-- Whitespace as trimmed by the parser: space, tab, carriage return, newline. -/
def wsp (c : Char) : Bool :=
  c == ' ' || c == '\t' || c == '\r' || c == '\n'

/-- Drop leading and trailing whitespace from a character list
(the per-line `TrimSpace`). -/
def trimChars (cs : List Char) : List Char :=
  ((cs.dropWhile wsp).reverse.dropWhile wsp).reverse

/-- Split a character list into lines at newline characters. -/
def splitLinesAux : List Char → List Char → List (List Char)
  | [], acc => [acc.reverse]
  | c :: rest, acc =>
    if c == '\n' then acc.reverse :: splitLinesAux rest []
    else splitLinesAux rest (c :: acc)

/-- All lines of a string. -/
def splitLines (s : String) : List (List Char) :=
  splitLinesAux s.toList []

/-- First-match lookup in the insertion-ordered association list that models
the Go `map[string]string` together with its insertion order. -/
def lookupVal : List (String × String) → String → Option String
  | [], _ => none
  | (k, v) :: rest, key => if k == key then some v else lookupVal rest key

/-- Modelled from the spec: the `Config` data model of the missing `knf.go`
(spec section 3): the source path, the flat `"section:property" -> raw value`
mapping, and the first-seen order of section names. -/
structure Config where
  file : String
  data : List (String × String)
  sections : List String
deriving DecidableEq

/-- Is a character a decimal digit? -/
def isDig (c : Char) : Bool :=
  48 ≤ c.toNat && c.toNat ≤ 57

/-- Modelled from the spec: the line-by-line parser of the missing `knf.go`
(spec section 4.1).  A line whose trimmed content is enclosed in `[...]`
starts a section; a trimmed line starting with `#` is a comment; a line
containing `:` is a property (name before the first colon, value after, both
trimmed); a property line seen before any section header makes the file
malformed; anything else contributes nothing. -/
def parseAux : List (List Char) → Option String → List (String × String) → List String →
    Except String (List (String × String) × List String)
  | [], _, d, secs => Except.ok (d, secs)
  | l :: rest, cur, d, secs =>
    let t := trimChars l
    if t.isEmpty then parseAux rest cur d secs
    else if t.head? == some '#' then parseAux rest cur d secs
    else if t.head? == some '[' && t.getLast? == some ']' then
      let name := String.mk (trimChars (t.drop 1).dropLast)
      parseAux rest (some name) d (if secs.contains name then secs else secs ++ [name])
    else if t.contains ':' then
      match cur with
      | none => Except.error "malformed"
      | some sec =>
        let nm := String.mk (trimChars (t.takeWhile (fun c => !(c == ':'))))
        let vl := String.mk (trimChars ((t.dropWhile (fun c => !(c == ':'))).drop 1))
        parseAux rest cur (d ++ [(sec ++ ":" ++ nm, vl)]) secs
    else parseAux rest cur d secs

/-- Parse a whole configuration text. -/
def parse (s : String) : Except String (List (String × String) × List String) :=
  parseAux (splitLines s) none [] []

/-- A lexical piece of a raw property value: a plain character, or the content
of a brace-enclosed macro token. -/
inductive MTok
  | ch (c : Char)
  | mac (s : String)
deriving DecidableEq

/-- Single left-to-right pass splitting a raw value into plain characters and
brace-enclosed macro tokens.  The accumulator holds the (reversed) content of
a token currently being read; an unclosed or restarted token is emitted back
as plain characters. -/
def mtokenize : List Char → Option (List Char) → List MTok
  | [], none => []
  | [], some acc => MTok.ch lbrace :: (acc.reverse.map MTok.ch)
  | c :: rest, none =>
    if c == lbrace then mtokenize rest (some [])
    else MTok.ch c :: mtokenize rest none
  | c :: rest, some acc =>
    if c == rbrace then MTok.mac (String.mk acc.reverse) :: mtokenize rest none
    else if c == lbrace then
      (MTok.ch lbrace :: acc.reverse.map MTok.ch) ++ mtokenize rest (some [])
    else mtokenize rest (some (c :: acc))

/-- Render token pieces back to the characters they came from (used for
tokens left verbatim). -/
def flattenToks : List MTok → List Char
  | [] => []
  | MTok.ch c :: rest => c :: flattenToks rest
  | MTok.mac s :: rest => lbrace :: (s.toList ++ (rbrace :: flattenToks rest))

/-- Does the token content carry the composite-key qualifier (a colon)? -/
def hasColon (s : String) : Bool :=
  s.toList.contains ':'

/-- Modelled from the spec: the recursive macro resolver of the missing
`knf.go` (spec section 4.2).  A token whose content is an existing composite
key is replaced by the depth-first resolved value of that key; a token whose
key does not resolve, or lacks the colon qualifier, stays verbatim.  The spec
requires a termination guard for reference cycles while leaving their result
unspecified; the guard here is a step budget, each consumed character or
dereference costing one step, with leftover tokens kept verbatim when it runs
out. -/
def resolveAux (data : List (String × String)) : Nat → List MTok → List Char
  | 0, toks => flattenToks toks
  | _ + 1, [] => []
  | fuel + 1, MTok.ch c :: rest => c :: resolveAux data fuel rest
  | fuel + 1, MTok.mac s :: rest =>
    match (if hasColon s then lookupVal data s else none) with
    | some v => resolveAux data fuel (mtokenize v.toList none) ++ resolveAux data fuel rest
    | none => lbrace :: (s.toList ++ (rbrace :: resolveAux data fuel rest))

/-- Fully macro-substitute a raw stored value (total: substitution is
best-effort and never fails). -/
def resolveVal (data : List (String × String)) (s : String) : String :=
  String.mk (resolveAux data 4096 (mtokenize s.toList none))

/-- Digit value of a decimal digit character. -/
def digitVal (c : Char) : Option Nat :=
  if 48 ≤ c.toNat && c.toNat ≤ 57 then some (c.toNat - 48) else none

/-- Digit value of a hexadecimal digit character. -/
def hexVal (c : Char) : Option Nat :=
  if 48 ≤ c.toNat && c.toNat ≤ 57 then some (c.toNat - 48)
  else if 97 ≤ c.toNat && c.toNat ≤ 102 then some (c.toNat - 87)
  else if 65 ≤ c.toNat && c.toNat ≤ 70 then some (c.toNat - 55)
  else none

/-- Digit value of an octal digit character. -/
def octVal (c : Char) : Option Nat :=
  if 48 ≤ c.toNat && c.toNat ≤ 55 then some (c.toNat - 48) else none

/-- Accumulate digits in a given base; fails on any non-digit. -/
def parseDigitsAux (base : Nat) (dv : Char → Option Nat) : List Char → Nat → Option Nat
  | [], acc => some acc
  | c :: rest, acc =>
    match dv c with
    | some d => parseDigitsAux base dv rest (acc * base + d)
    | none => none

/-- A non-empty all-digit run in a given base. -/
def parseDigits (base : Nat) (dv : Char → Option Nat) : List Char → Option Nat
  | [] => none
  | cs => parseDigitsAux base dv cs 0

/-- Unsigned integer body: `0x`-prefixed hexadecimal, else base-10. -/
def parseUnsigned : List Char → Option Nat
  | '0' :: 'x' :: rest => parseDigits 16 hexVal rest
  | cs => parseDigits 10 digitVal cs

/-- Modelled from the spec: the integer parse of `GetI` in the missing
`knf.go` (spec section 4.3): base-10 or `0x`-prefixed hexadecimal, optional
leading sign on the decimal form; anything else (a decimal point included)
fails. -/
def parseInt (s : String) : Option Int :=
  match s.toList with
  | '-' :: rest => (parseDigits 10 digitVal rest).map (fun n => -(n : Int))
  | '+' :: rest => (parseDigits 10 digitVal rest).map (fun n => (n : Int))
  | cs => (parseUnsigned cs).map (fun n => (n : Int))

/-- Value of a known-valid digit run. -/
def natOfDigits : List Char → Nat → Nat
  | [], acc => acc
  | c :: rest, acc => natOfDigits rest (acc * 10 + (c.toNat - 48))

/-- Unsigned decimal-fraction body: digits, optionally a dot and more
digits. -/
def parseFracBody (cs : List Char) : Option Rat :=
  let ip := cs.takeWhile isDig
  let rest := cs.dropWhile isDig
  if ip.isEmpty then none
  else
    match rest with
    | [] => some (mkRat (Int.ofNat (natOfDigits ip 0)) 1)
    | '.' :: frac =>
      if frac.all isDig then
        some (mkRat
          (Int.ofNat (natOfDigits ip 0 * 10 ^ frac.length + natOfDigits frac 0))
          (10 ^ frac.length))
      else none
    | _ => none

/-- Modelled from the spec: the floating-point parse of `GetF` in the missing
`knf.go` (spec section 4.3), over exact rationals: optional sign, decimal
digits, optional fractional part. -/
def parseFloat (s : String) : Option Rat :=
  match s.toList with
  | '-' :: rest => (parseFracBody rest).map Rat.neg
  | '+' :: rest => parseFracBody rest
  | cs => parseFracBody cs

/-- Modelled from the spec: the octal file-mode parse of `GetM` in the missing
`knf.go` (spec section 4.3): a non-empty run of octal digits, a leading zero
being just another digit; anything else fails. -/
def parseMode (s : String) : Option Nat :=
  parseDigits 8 octVal s.toList

/-- Modelled from the spec: `GetS` of the missing `knf.go` (spec section 4.3).
The default also applies when the stored value is the empty string, a
behaviour pinned by the tests of the package (`TestDefault` reads
`GetS("string:test6", "fail")` as `"fail"` after a successful load). -/
def GetS (c : Option Config) (name : String) (defvals : List String) : String :=
  match c with
  | none => defvals.headD ""
  | some cfg =>
    match lookupVal cfg.data name with
    | none => defvals.headD ""
    | some raw =>
      if raw == "" then defvals.headD ""
      else resolveVal cfg.data raw

/-- Modelled from the spec: `GetI` of the missing `knf.go` (spec section 4.3):
the default applies when the key is absent; a present value that fails the
integer parse degrades to `0`. -/
def GetI (c : Option Config) (name : String) (defvals : List Int) : Int :=
  match c with
  | none => defvals.headD 0
  | some cfg =>
    match lookupVal cfg.data name with
    | none => defvals.headD 0
    | some raw => (parseInt (resolveVal cfg.data raw)).getD 0

/-- Modelled from the spec: `GetF` of the missing `knf.go` (spec
section 4.3). -/
def GetF (c : Option Config) (name : String) (defvals : List Rat) : Rat :=
  match c with
  | none => defvals.headD 0
  | some cfg =>
    match lookupVal cfg.data name with
    | none => defvals.headD 0
    | some raw => (parseFloat (resolveVal cfg.data raw)).getD 0

/-- Modelled from the spec: `GetB` of the missing `knf.go` (spec section 4.3):
the resolved value is falsy exactly when it is `"false"`, `"0"` or empty. -/
def GetB (c : Option Config) (name : String) (defvals : List Bool) : Bool :=
  match c with
  | none => defvals.headD false
  | some cfg =>
    match lookupVal cfg.data name with
    | none => defvals.headD false
    | some raw =>
      let v := resolveVal cfg.data raw
      !(v == "false" || v == "0" || v == "")

/-- Modelled from the spec: `GetM` of the missing `knf.go` (spec
section 4.3). -/
def GetM (c : Option Config) (name : String) (defvals : List Nat) : Nat :=
  match c with
  | none => defvals.headD 0
  | some cfg =>
    match lookupVal cfg.data name with
    | none => defvals.headD 0
    | some raw => (parseMode (resolveVal cfg.data raw)).getD 0

/-- Modelled from the spec: `HasSection` of the missing `knf.go`. -/
def HasSection (c : Option Config) (sec : String) : Bool :=
  match c with
  | none => false
  | some cfg => cfg.sections.contains sec

/-- Modelled from the spec: `HasProp` of the missing `knf.go`.  The tests pin
that it reports only properties with a non-empty stored value
(`HasProp("string:test6")` is `false` although `string:test6` is present with
an empty value). -/
def HasProp (c : Option Config) (name : String) : Bool :=
  match c with
  | none => false
  | some cfg =>
    match lookupVal cfg.data name with
    | none => false
    | some v => !(v == "")

/-- Modelled from the spec: `Sections` of the missing `knf.go`: distinct
section names in first-seen order. -/
def Sections (c : Option Config) : List String :=
  match c with
  | none => []
  | some cfg => cfg.sections

/-- Modelled from the spec: `Props` of the missing `knf.go`: the property
names under a section in first-seen order. -/
def Props (c : Option Config) (sec : String) : List String :=
  match c with
  | none => []
  | some cfg =>
    cfg.data.filterMap (fun kv =>
      if (sec ++ ":").isPrefixOf kv.1 then some (kv.1.drop (sec.length + 1))
      else none)

/-- The state of the file at a path, the minimal contract the spec grants the
out-of-scope filesystem probes: missing, or present with a readability flag
and content (a zero-length content is a zero-byte file). -/
inductive FileState
  | missing
  | file (readable : Bool) (content : String)
deriving DecidableEq

/-- Modelled from the spec: the load operation of the missing `knf.go` (spec
sections 4.1 and 7) over a `FileState`: the four distinct, path-naming
failure modes, and on success a `Config` owning the parsed data.  The exact
messages are pinned by the tests of the package. -/
def loadFile (path : String) (fs : FileState) : Except String Config :=
  match fs with
  | FileState.missing => Except.error ("File " ++ path ++ " does not exist")
  | FileState.file readable content =>
    if content.length = 0 then Except.error ("File " ++ path ++ " is empty")
    else if !readable then Except.error ("File " ++ path ++ " is not readable")
    else
      match parse content with
      | Except.error _ =>
        Except.error ("Configuration file " ++ path ++ " is malformed")
      | Except.ok pr => Except.ok { file := path, data := pr.1, sections := pr.2 }

/-- Keys of the union of two data maps, ordered by the first map first. -/
def unionKeys (old new : List (String × String)) : List String :=
  (old.map Prod.fst ++ (new.map Prod.fst).filter (fun k => !(old.map Prod.fst).contains k))

/-- Has the resolved value of a key changed between two data maps (presence
changes count as changed)? -/
def propChanged (old new : List (String × String)) (k : String) : Bool :=
  match lookupVal old k, lookupVal new k with
  | none, none => false
  | some _, none => true
  | none, some _ => true
  | some a, some b => !(resolveVal old a == resolveVal new b)

/-- Modelled from the spec: `Reload` of the missing `knf.go` (spec
section 4.4).  The first component is the post-state of the receiver: on any
failure it is the untouched input.  On success the data is swapped and the
change map over the union of old and new keys is reported. -/
def Reload (c : Option Config) (fs : FileState) :
    Option Config × Except String (List (String × Bool)) :=
  match c with
  | none => (none, Except.error "Config is nil")
  | some cfg =>
    if cfg.file == "" then
      (some cfg, Except.error "Path to config file is empty (non initialized struct?)")
    else
      match loadFile cfg.file fs with
      | Except.error e => (some cfg, Except.error e)
      | Except.ok newCfg =>
        (some newCfg,
          Except.ok ((unionKeys cfg.data newCfg.data).map
            (fun k => (k, propChanged cfg.data newCfg.data k))))

/-- The type-erased validator constraint (Go `interface\x7b\x7d`), as the
tagged variant the design notes of the spec call for: integer, float, boolean,
string, string sequence, or nothing. -/
inductive TypeValue
  | int (i : Int)
  | float (q : Rat)
  | bool (b : Bool)
  | str (s : String)
  | strList (l : List String)
  | unit
deriving DecidableEq

/-- Rendering of a rational constraint inside a validation message (no claim
pins the exact float formatting). -/
def fmtRat (q : Rat) : String :=
  if q.den = 1 then toString q.num
  else toString q.num ++ "/" ++ toString q.den

/-- Modelled from the spec: the `Empty` checker of the missing `knf.go` (spec
section 4.5): fails when the resolved value is the empty string. -/
def Empty (cfg : Config) (prop : String) (_ : TypeValue) : Option String :=
  if GetS (some cfg) prop [] == "" then
    some ("Property " ++ prop ++ " can\x27t be empty")
  else none

/-- Modelled from the spec: the `Less` checker of the missing `knf.go` (spec
section 4.5): fails when the value is less than an int or float constraint; a
constraint of any other type is checker misuse. -/
def Less (cfg : Config) (prop : String) (v : TypeValue) : Option String :=
  match v with
  | TypeValue.int i =>
    if GetI (some cfg) prop [] < i then
      some ("Property " ++ prop ++ " can\x27t be less than " ++ toString i)
    else none
  | TypeValue.float q =>
    if GetF (some cfg) prop [] < q then
      some ("Property " ++ prop ++ " can\x27t be less than " ++ fmtRat q)
    else none
  | _ => some ("Wrong validator for property " ++ prop)

/-- Modelled from the spec: the `Greater` checker of the missing `knf.go`
(spec section 4.5): fails when the value is greater than an int or float
constraint; a constraint of any other type is checker misuse. -/
def Greater (cfg : Config) (prop : String) (v : TypeValue) : Option String :=
  match v with
  | TypeValue.int i =>
    if i < GetI (some cfg) prop [] then
      some ("Property " ++ prop ++ " can\x27t be greater than " ++ toString i)
    else none
  | TypeValue.float q =>
    if q < GetF (some cfg) prop [] then
      some ("Property " ++ prop ++ " can\x27t be greater than " ++ fmtRat q)
    else none
  | _ => some ("Wrong validator for property " ++ prop)

/-- Modelled from the spec: the `Equals` checker of the missing `knf.go`
(spec section 4.5 and the tests): fails precisely when the type-matched value
of the key equals the constraint; an int, float, bool or string constraint is
supported, anything else is checker misuse. -/
def Equals (cfg : Config) (prop : String) (v : TypeValue) : Option String :=
  match v with
  | TypeValue.int i =>
    if GetI (some cfg) prop [] = i then
      some ("Property " ++ prop ++ " can\x27t be equal " ++ toString i)
    else none
  | TypeValue.float q =>
    if GetF (some cfg) prop [] = q then
      some ("Property " ++ prop ++ " can\x27t be equal " ++ fmtRat q)
    else none
  | TypeValue.bool b =>
    if GetB (some cfg) prop [] = b then
      some ("Property " ++ prop ++ " can\x27t be equal " ++ toString b)
    else none
  | TypeValue.str s =>
    if GetS (some cfg) prop [] = s then
      some ("Property " ++ prop ++ " can\x27t be equal " ++ s)
    else none
  | _ => some ("Wrong validator for property " ++ prop)

/-- Modelled from the spec: the `NotContains` checker of the missing `knf.go`
(spec section 4.5): the constraint must be a string sequence; fails when the
resolved value equals no element of it. -/
def NotContains (cfg : Config) (prop : String) (v : TypeValue) : Option String :=
  match v with
  | TypeValue.strList l =>
    if l.contains (GetS (some cfg) prop []) then none
    else some ("Property " ++ prop ++ " doesn\x27t contains any valid value")
  | _ => some ("Wrong validator for property " ++ prop)

/-- Modelled from the spec: a `Validator` of the missing `knf.go` (spec
section 4.5): a property key, a checking function and a type-erased
constraint. -/
structure Validator where
  property : String
  func : Config → String → TypeValue → Option String
  value : TypeValue

/-- Run one validator against a (non-nil) store. -/
def runValidator (cfg : Config) (v : Validator) : Option String :=
  v.func cfg v.property v.value

/-- The Go loop body of `Validate`: every validator runs, non-nil errors are
collected in input order. -/
def validateAll (cfg : Config) : List Validator → List String
  | [] => []
  | v :: rest =>
    match runValidator cfg v with
    | some e => e :: validateAll cfg rest
    | none => validateAll cfg rest

/-- Modelled from the spec: `Config.Validate` of the missing `knf.go` (spec
section 4.5): a nil receiver yields the single store-nil error (message
pinned by `TestNil`), otherwise every validator runs. -/
def Validate (c : Option Config) (vs : List Validator) : List String :=
  match c with
  | none => ["Config is nil"]
  | some cfg => validateAll cfg vs

/-- Modelled from the spec: the package-level `Validate` of the missing
`knf.go` running against the process-wide default config: a nil global yields
the single store-nil error (message pinned by `TestErrors`). -/
def GlobalValidate (g : Option Config) (vs : List Validator) : List String :=
  match g with
  | none => ["Global config struct is nil"]
  | some cfg => Validate (some cfg) vs

/-- The byte-exact content of the `_CONFIG_DATA` constant
(`src/knf/knf_test.go`), one list entry per line. -/
def CONFIG_DATA : String :=
  String.intercalate "\n"
    [ ""
    , "    [formating]"
    , "test1:      1"
    , "            test2:2"
    , ""
    , "\t\ttest3: 3"
    , ""
    , "[string]"
    , "  test1: test"
    , "  test2: true"
    , "  test3: 4500"
    , "  test4: !$%^&"
    , "  test5: long long long long text for test"
    , "  test6: "
    , ""
    , "[boolean]"
    , "  test1: true"
    , "  test2: false"
    , "  test3: 0"
    , "  test4: 1"
    , "  test5:"
    , "  test6: example for test"
    , ""
    , "[integer]"
    , "  test1: 1"
    , "  test2: -5"
    , "  test3: 10000000"
    , "  test4: A"
    , "  test5: 0xFF"
    , "  test6: 123.4"
    , "  test7: 123.456789"
    , "  test8: 0xZZYY"
    , "  test9: ABCD"
    , ""
    , "[file-mode]"
    , "  test1: 644"
    , "  test2: 0644"
    , "  test3: 0"
    , "  test4: ABC"
    , "  test5: true"
    , ""
    , "[comment]"
    , "  test1: 100"
    , "  # test2: 100"
    , ""
    , "[macro]"
    , "  test1: 100"
    , "  test2: \x7bmacro:test1\x7d.50"
    , "  test3: Value is \x7bmacro:test2\x7d"
    , "  test4: \"\x7bmacro:test3\x7d\""
    , "  test5: \x7bABC\x7d"
    , "  test6: \x7b\x7d"
    , ""
    , "[k]"
    , "  t: 1"
    ] ++ "\n"

/-- The byte-exact content of the `_CONFIG_MALF_DATA` constant:
property lines before any section header. -/
def CONFIG_MALF_DATA : String :=
  String.intercalate "\n" ["", "  test1: 123", "  test2: 111"] ++ "\n"

/-- The inert fallback config (never reached: `CONFIG_DATA` loads). -/
def emptyCfg : Config :=
  { file := "", data := [], sections := [] }

/-- The config obtained by loading the data of the test suite, as `SetUpSuite` and
`Global(s.ConfigPath)` do. -/
def testCfg : Config :=
  match loadFile "knf-config-test.conf" (FileState.file true CONFIG_DATA) with
  | Except.ok c => c
  | Except.error _ => emptyCfg

/-- The parsed form of `CONFIG_DATA`, written out (proved equal to `testCfg`
below, and used to keep the remaining proofs cheap). -/
def tcfgLit : Config :=
  { file := "knf-config-test.conf"
  , data :=
    [ ("formating:test1", "1"), ("formating:test2", "2"), ("formating:test3", "3")
    , ("string:test1", "test"), ("string:test2", "true"), ("string:test3", "4500")
    , ("string:test4", "!$%^&"), ("string:test5", "long long long long text for test")
    , ("string:test6", "")
    , ("boolean:test1", "true"), ("boolean:test2", "false"), ("boolean:test3", "0")
    , ("boolean:test4", "1"), ("boolean:test5", ""), ("boolean:test6", "example for test")
    , ("integer:test1", "1"), ("integer:test2", "-5"), ("integer:test3", "10000000")
    , ("integer:test4", "A"), ("integer:test5", "0xFF"), ("integer:test6", "123.4")
    , ("integer:test7", "123.456789"), ("integer:test8", "0xZZYY"), ("integer:test9", "ABCD")
    , ("file-mode:test1", "644"), ("file-mode:test2", "0644"), ("file-mode:test3", "0")
    , ("file-mode:test4", "ABC"), ("file-mode:test5", "true")
    , ("comment:test1", "100")
    , ("macro:test1", "100"), ("macro:test2", "\x7bmacro:test1\x7d.50")
    , ("macro:test3", "Value is \x7bmacro:test2\x7d")
    , ("macro:test4", "\"\x7bmacro:test3\x7d\"")
    , ("macro:test5", "\x7bABC\x7d"), ("macro:test6", "\x7b\x7d")
    , ("k:t", "1") ]
  , sections :=
    ["formating", "string", "boolean", "integer", "file-mode", "comment", "macro", "k"] }

/-- Loading the configuration data of the test suite succeeds and yields exactly
`tcfgLit`. -/
theorem testCfg_eq : testCfg = tcfgLit := by decide

/-- The `fakeConfig` store built directly in `TestValidation`. -/
def fakeCfg : Config :=
  { file := ""
  , data :=
    [ ("test:empty", ""), ("test:string", "test"), ("test:integer", "10")
    , ("test:float", "10.0"), ("test:boolean", "false") ]
  , sections := [] }

/-- The passing validator list of `TestValidation`. -/
def goodValidators : List Validator :=
  [ ⟨"integer:test1", Empty, TypeValue.unit⟩
  , ⟨"integer:test1", Less, TypeValue.int 0⟩
  , ⟨"integer:test1", Less, TypeValue.float (mkRat 1 2)⟩
  , ⟨"integer:test1", Greater, TypeValue.int 10⟩
  , ⟨"integer:test1", Greater, TypeValue.float (mkRat 101 10)⟩
  , ⟨"integer:test1", Equals, TypeValue.int 10⟩
  , ⟨"integer:test1", Equals, TypeValue.float (mkRat 101 10)⟩
  , ⟨"integer:test1", Equals, TypeValue.str "123"⟩ ]

/-- The failing validator list of `TestValidation`. -/
def badValidators : List Validator :=
  [ ⟨"boolean:test5", Empty, TypeValue.unit⟩
  , ⟨"integer:test1", Less, TypeValue.int 10⟩
  , ⟨"integer:test1", Greater, TypeValue.int 0⟩
  , ⟨"integer:test1", Equals, TypeValue.int 1⟩
  , ⟨"integer:test1", Greater, TypeValue.str "12345"⟩
  , ⟨"integer:test1", NotContains, TypeValue.strList ["A", "B", "C"]⟩ ]

/-- The `&Config\x7bfile: "/_not_exists_"\x7d` receiver of `TestErrors`. -/
def notExistsCfg : Config :=
  { file := "/_not_exists_", data := [], sections := [] }

/-- Flattening plain-character tokens recovers the characters. -/
theorem flattenToks_chs : ∀ cs : List Char, flattenToks (cs.map MTok.ch) = cs
  | [] => rfl
  | c :: rest => by
    simp only [List.map_cons, flattenToks]
    exact congrArg (c :: ·) (flattenToks_chs rest)

/-- The resolver leaves plain-character tokens unchanged for every budget. -/
theorem resolveAux_chs (data : List (String × String)) :
    ∀ (cs : List Char) (fuel : Nat), resolveAux data fuel (cs.map MTok.ch) = cs
  | [], 0 => rfl
  | [], _ + 1 => rfl
  | c :: rest, 0 => by
    simp only [List.map_cons, resolveAux, flattenToks]
    exact congrArg (c :: ·) (flattenToks_chs rest)
  | c :: rest, fuel + 1 => by
    simp only [List.map_cons, resolveAux]
    exact congrArg (c :: ·) (resolveAux_chs data rest fuel)

/-- A value with no opening brace tokenizes to plain characters only. -/
theorem mtokenize_no_lbrace :
    ∀ cs : List Char, cs.all (fun c => !(c == lbrace)) = true →
      mtokenize cs none = cs.map MTok.ch
  | [], _ => rfl
  | c :: rest, h => by
    simp only [List.all_cons, Bool.and_eq_true] at h
    obtain ⟨h1, h2⟩ := h
    have hc : (c == lbrace) = false := by simpa using h1
    simp only [mtokenize, List.map_cons]
    rw [if_neg (by simp [hc])]
    exact congrArg (MTok.ch c :: ·) (mtokenize_no_lbrace rest h2)

/-- Macro substitution leaves any value containing no opening brace
unchanged, whatever the data map. -/
theorem resolveVal_no_lbrace (data : List (String × String)) (s : String)
    (h : s.toList.all (fun c => !(c == lbrace)) = true) :
    resolveVal data s = s := by
  unfold resolveVal
  rw [mtokenize_no_lbrace s.toList h, resolveAux_chs data s.toList 4096]
  rfl

/-- Two appends around a shared middle differ whenever the outer lengths
differ. -/
theorem append_len_ne (x y u v p : String)
    (h : x.length + y.length ≠ u.length + v.length) :
    x ++ p ++ y ≠ u ++ p ++ v := by
  intro heq
  apply h
  have hl := congrArg String.length heq
  simp only [String.length_append] at hl
  omega

/-- The Go loop of `Validate` collects exactly the non-nil checker results,
in input order. -/
theorem validateAll_eq_filterMap (cfg : Config) :
    ∀ vs : List Validator, validateAll cfg vs = vs.filterMap (runValidator cfg)
  | [] => rfl
  | v :: rest => by
    simp only [validateAll, List.filterMap_cons]
    cases runValidator cfg v with
    | none => exact validateAll_eq_filterMap cfg rest
    | some e => exact congrArg (e :: ·) (validateAll_eq_filterMap cfg rest)

/-- The Go loop of `Validate` never stops early: it distributes over list
concatenation. -/
theorem validateAll_append (cfg : Config) (vs₁ vs₂ : List Validator) :
    validateAll cfg (vs₁ ++ vs₂) = validateAll cfg vs₁ ++ validateAll cfg vs₂ := by
  rw [validateAll_eq_filterMap, validateAll_eq_filterMap, validateAll_eq_filterMap,
    List.filterMap_append]

/-- C1: on the loaded test configuration, `GetS` returns each stored value
with every `\x7bmacro:<key>\x7d` token replaced by the recursively
(depth-first) resolved value of the key, tokens that do not resolve to an
existing property or lack the qualifier (`\x7bABC\x7d`, `\x7b\x7d`) staying
verbatim; a value with no token at all is returned unchanged for every store.
Resolution is a total function, so it never returns an error. -/
theorem C1_getS_macro_substitution :
    GetS (some testCfg) "macro:test1" [] = "100" ∧
    GetS (some testCfg) "macro:test2" [] = "100.50" ∧
    GetS (some testCfg) "macro:test3" [] = "Value is 100.50" ∧
    GetS (some testCfg) "macro:test4" [] = "\"Value is 100.50\"" ∧
    GetS (some testCfg) "macro:test5" [] = "\x7bABC\x7d" ∧
    GetS (some testCfg) "macro:test6" [] = "\x7b\x7d" ∧
    (∀ (d : List (String × String)) (s : String),
      s.toList.all (fun c => !(c == lbrace)) = true → resolveVal d s = s) := by
  refine ⟨?_, ?_, ?_, ?_, ?_, ?_, resolveVal_no_lbrace⟩ <;>
    (simp only [testCfg_eq]; decide)

/-- C1 witness: the verbatim-value conjunct applied at a concrete store and
value. -/
theorem C1_getS_macro_substitution_witness :
    resolveVal [("a:b", "1")] "plain text" = "plain text" :=
  C1_getS_macro_substitution.2.2.2.2.2.2 [("a:b", "1")] "plain text" (by decide)

/-- C2: loading fails with exactly one of four distinct errors, each naming
the path: missing file, zero-byte file, unreadable file, and a file with a
property line before any section header. -/
theorem C2_load_failure_modes :
    (∀ path, loadFile path FileState.missing =
      Except.error ("File " ++ path ++ " does not exist")) ∧
    (∀ path (r : Bool) (content : String), content.length = 0 →
      loadFile path (FileState.file r content) =
        Except.error ("File " ++ path ++ " is empty")) ∧
    (∀ path (content : String), content.length ≠ 0 →
      loadFile path (FileState.file false content) =
        Except.error ("File " ++ path ++ " is not readable")) ∧
    (∀ path, loadFile path (FileState.file true CONFIG_MALF_DATA) =
      Except.error ("Configuration file " ++ path ++ " is malformed")) ∧
    (∀ path,
      ("File " ++ path ++ " does not exist") ≠ ("File " ++ path ++ " is empty") ∧
      ("File " ++ path ++ " does not exist") ≠ ("File " ++ path ++ " is not readable") ∧
      ("File " ++ path ++ " does not exist") ≠
        ("Configuration file " ++ path ++ " is malformed") ∧
      ("File " ++ path ++ " is empty") ≠ ("File " ++ path ++ " is not readable") ∧
      ("File " ++ path ++ " is empty") ≠
        ("Configuration file " ++ path ++ " is malformed") ∧
      ("File " ++ path ++ " is not readable") ≠
        ("Configuration file " ++ path ++ " is malformed")) := by
  refine ⟨fun path => rfl, ?_, ?_, fun path => rfl, ?_⟩
  · intro path r content h
    simp [loadFile, h]
  · intro path content h
    simp [loadFile, h]
  · intro path
    exact ⟨append_len_ne _ _ _ _ path (by decide), append_len_ne _ _ _ _ path (by decide),
      append_len_ne _ _ _ _ path (by decide), append_len_ne _ _ _ _ path (by decide),
      append_len_ne _ _ _ _ path (by decide), append_len_ne _ _ _ _ path (by decide)⟩

/-- C2 witness: the four failure modes at the concrete paths of the test suite and
file states. -/
theorem C2_load_failure_modes_witness :
    loadFile "/_not_exists_" FileState.missing =
      Except.error ("File " ++ "/_not_exists_" ++ " does not exist") ∧
    loadFile "knf-config-test-empty.conf" (FileState.file true "") =
      Except.error ("File " ++ "knf-config-test-empty.conf" ++ " is empty") ∧
    loadFile "/etc/sudoers" (FileState.file false "root ALL") =
      Except.error ("File " ++ "/etc/sudoers" ++ " is not readable") ∧
    loadFile "knf-config-test-malf.conf" (FileState.file true CONFIG_MALF_DATA) =
      Except.error ("Configuration file " ++ "knf-config-test-malf.conf" ++ " is malformed") :=
  ⟨C2_load_failure_modes.1 "/_not_exists_",
   C2_load_failure_modes.2.1 "knf-config-test-empty.conf" true "" (by decide),
   C2_load_failure_modes.2.2.1 "/etc/sudoers" "root ALL" (by decide),
   C2_load_failure_modes.2.2.2.1 "knf-config-test-malf.conf"⟩

/-- C3 counterexample: `string:test6` is stored with an empty-string value in
the loaded test configuration, yet `HasProp` on its composite key returns
`false`, refuting the claim that `HasProp` returns `true` there. -/
theorem C3_counterexample :
    lookupVal testCfg.data "string:test6" = some "" ∧
    HasProp (some testCfg) "string:test6" = false := by
  simp only [testCfg_eq]; decide

/-- C3 (amended): a property line with nothing after the colon is stored with
an empty-string value, but `HasProp` reports only properties whose stored
value is non-empty, so the empty-valued property is indistinguishable from a
missing key through `HasProp`, and `GetS` with a default returns the default
for it. -/
theorem C3_empty_value_semantics :
    lookupVal testCfg.data "string:test6" = some "" ∧
    HasProp (some testCfg) "string:test6" = false ∧
    GetS (some testCfg) "string:test6" ["fail"] = "fail" ∧
    (∀ (cfg : Config) (k v : String), lookupVal cfg.data k = some v → v ≠ "" →
      HasProp (some cfg) k = true) ∧
    (∀ (cfg : Config) (k : String), lookupVal cfg.data k = none →
      HasProp (some cfg) k = false) := by
  refine ⟨?_, ?_, ?_, ?_, ?_⟩
  · simp only [testCfg_eq]; decide
  · simp only [testCfg_eq]; decide
  · simp only [testCfg_eq]; decide
  · intro cfg k v h hv
    simp [HasProp, h, hv]
  · intro cfg k h
    simp [HasProp, h]

/-- C3 witness: the `HasProp` characterization applied at a stored non-empty
property and at a missing key of the loaded test configuration. -/
theorem C3_empty_value_semantics_witness :
    HasProp (some testCfg) "string:test1" = true ∧
    HasProp (some testCfg) "strings:test6" = false :=
  ⟨C3_empty_value_semantics.2.2.2.1 testCfg "string:test1" "test"
      (by simp only [testCfg_eq]; decide) (by decide),
   C3_empty_value_semantics.2.2.2.2 testCfg "strings:test6"
      (by simp only [testCfg_eq]; decide)⟩

/-- C4: `GetI` parses the macro-resolved value as base-10 or `0x`-prefixed
hexadecimal; a present value that fails this parse (a decimal point
included) yields `0` even when a default is supplied, while the default
applies when the key is absent. -/
theorem C4_getI_parse_and_default :
    (∀ (cfg : Config) (k : String) (d : Int), lookupVal cfg.data k = none →
      GetI (some cfg) k [d] = d) ∧
    (∀ (cfg : Config) (k raw : String) (d : Int), lookupVal cfg.data k = some raw →
      parseInt (resolveVal cfg.data raw) = none → GetI (some cfg) k [d] = 0) ∧
    GetI (some testCfg) "integer:test1" [] = 1 ∧
    GetI (some testCfg) "integer:test2" [] = -5 ∧
    GetI (some testCfg) "integer:test3" [] = 10000000 ∧
    GetI (some testCfg) "integer:test4" [] = 0 ∧
    GetI (some testCfg) "integer:test4" [9999] = 0 ∧
    GetI (some testCfg) "integer:test5" [] = 255 ∧
    GetI (some testCfg) "integer:test6" [] = 0 ∧
    GetI (some testCfg) "integer:test6" [9999] = 0 ∧
    GetI (some testCfg) "macro:test1" [] = 100 ∧
    parseInt "123.4" = none := by
  refine ⟨?_, ?_, ?_⟩
  · intro cfg k d h
    simp [GetI, h]
  · intro cfg k raw d h hp
    simp [GetI, h, hp]
  · simp only [testCfg_eq]; decide

/-- C4 witness: the absent-key default and the malformed-value degradation
applied at concrete keys of the loaded test configuration. -/
theorem C4_getI_parse_and_default_witness :
    GetI (some testCfg) "integer:test100" [9999] = 9999 ∧
    GetI (some testCfg) "integer:test8" [7777] = 0 :=
  ⟨C4_getI_parse_and_default.1 testCfg "integer:test100" 9999
      (by simp only [testCfg_eq]; decide),
   C4_getI_parse_and_default.2.1 testCfg "integer:test8" "0xZZYY" 7777
      (by simp only [testCfg_eq]; decide) (by simp only [testCfg_eq]; decide)⟩

/-- C5: `GetB` (called without a default) returns `false` exactly when the
resolved value — as returned by `GetS` — is `"false"`, `"0"` or the empty
string, and `true` for every other value, arbitrary text included. -/
theorem C5_getB_falsy_tokens :
    (∀ (cfg : Config) (k : String), GetB (some cfg) k [] = false ↔
      (GetS (some cfg) k [] = "false" ∨ GetS (some cfg) k [] = "0" ∨
        GetS (some cfg) k [] = "")) ∧
    GetB (some testCfg) "boolean:test1" [] = true ∧
    GetB (some testCfg) "boolean:test2" [] = false ∧
    GetB (some testCfg) "boolean:test3" [] = false ∧
    GetB (some testCfg) "boolean:test4" [] = true ∧
    GetB (some testCfg) "boolean:test5" [] = false ∧
    GetB (some testCfg) "boolean:test6" [] = true := by
  refine ⟨?_, by simp only [testCfg_eq]; decide⟩
  intro cfg k
  cases h : lookupVal cfg.data k with
  | none => simp [GetB, GetS, h]
  | some raw =>
    by_cases hr : raw = ""
    · subst hr
      have hres : resolveVal cfg.data "" = "" := rfl
      simp [GetB, GetS, h, hres]
    · simp [GetB, GetS, h, hr]
      tauto

/-- C6: every accessor on a nil config and on a zero-value (unloaded) config
is total and returns the type zero-value, or the supplied default, exactly
as for a missing key. -/
theorem C6_nil_and_zero_value_accessors :
    ∀ (k d : String) (i : Int) (q : Rat) (b : Bool) (m : Nat),
      GetS none k [] = "" ∧ GetS none k [d] = d ∧
      GetI none k [] = 0 ∧ GetI none k [i] = i ∧
      GetF none k [] = 0 ∧ GetF none k [q] = q ∧
      GetB none k [] = false ∧ GetB none k [b] = b ∧
      GetM none k [] = 0 ∧ GetM none k [m] = m ∧
      HasSection none k = false ∧ HasProp none k = false ∧
      Sections none = [] ∧ Props none k = [] ∧
      GetS (some emptyCfg) k [] = "" ∧ GetS (some emptyCfg) k [d] = d ∧
      GetI (some emptyCfg) k [] = 0 ∧ GetI (some emptyCfg) k [i] = i ∧
      GetF (some emptyCfg) k [] = 0 ∧ GetF (some emptyCfg) k [q] = q ∧
      GetB (some emptyCfg) k [] = false ∧ GetB (some emptyCfg) k [b] = b ∧
      GetM (some emptyCfg) k [] = 0 ∧ GetM (some emptyCfg) k [m] = m ∧
      HasSection (some emptyCfg) k = false ∧ HasProp (some emptyCfg) k = false ∧
      Sections (some emptyCfg) = [] ∧ Props (some emptyCfg) k = [] :=
  fun _ _ _ _ _ _ =>
    ⟨rfl, rfl, rfl, rfl, rfl, rfl, rfl, rfl, rfl, rfl, rfl, rfl, rfl, rfl,
     rfl, rfl, rfl, rfl, rfl, rfl, rfl, rfl, rfl, rfl, rfl, rfl, rfl, rfl⟩

/-- C7: a reload whose re-parse fails leaves the config untouched and
surfaces the load failure, and a reload of a config with an empty file path
fails with the distinct path-is-empty error, also without touching the
data. -/
theorem C7_reload_failure_preserves_config :
    (∀ (cfg : Config) (fs : FileState), cfg.file = "" →
      Reload (some cfg) fs =
        (some cfg, Except.error "Path to config file is empty (non initialized struct?)")) ∧
    (∀ (cfg : Config) (fs : FileState) (e : String), cfg.file ≠ "" →
      loadFile cfg.file fs = Except.error e →
      Reload (some cfg) fs = (some cfg, Except.error e)) := by
  constructor
  · intro cfg fs h
    simp [Reload, h]
  · intro cfg fs e h hl
    simp [Reload, h, hl]

/-- C7 witness: reload of the zero-value config and of the
`/_not_exists_`-path config of `TestErrors`. -/
theorem C7_reload_failure_preserves_config_witness :
    Reload (some emptyCfg) FileState.missing =
      (some emptyCfg, Except.error "Path to config file is empty (non initialized struct?)") ∧
    Reload (some notExistsCfg) FileState.missing =
      (some notExistsCfg, Except.error ("File " ++ "/_not_exists_" ++ " does not exist")) :=
  ⟨C7_reload_failure_preserves_config.1 emptyCfg FileState.missing rfl,
   C7_reload_failure_preserves_config.2 notExistsCfg FileState.missing
      ("File " ++ "/_not_exists_" ++ " does not exist") (by decide) rfl⟩

/-- C8: `Validate` on a loaded store evaluates every validator of the list
and returns exactly the non-nil checker results, in input order (so it
distributes over concatenation and never stops early); the empty result
means fully valid, as on the two validator lists of the test suite. -/
theorem C8_validate_runs_all_in_order :
    (∀ (cfg : Config) (vs : List Validator),
      Validate (some cfg) vs = vs.filterMap (runValidator cfg)) ∧
    (∀ (cfg : Config) (vs₁ vs₂ : List Validator),
      Validate (some cfg) (vs₁ ++ vs₂) =
        Validate (some cfg) vs₁ ++ Validate (some cfg) vs₂) ∧
    Validate (some testCfg) goodValidators = [] ∧
    Validate (some testCfg) badValidators =
      [ "Property boolean:test5 can\x27t be empty"
      , "Property integer:test1 can\x27t be less than 10"
      , "Property integer:test1 can\x27t be greater than 0"
      , "Property integer:test1 can\x27t be equal 1"
      , "Wrong validator for property integer:test1"
      , "Property integer:test1 doesn\x27t contains any valid value" ] := by
  refine ⟨fun cfg vs => validateAll_eq_filterMap cfg vs,
    fun cfg vs₁ vs₂ => validateAll_append cfg vs₁ vs₂, ?_, ?_⟩
  · simp only [testCfg_eq]; decide
  · simp only [testCfg_eq]; decide

/-- C9 counterexample: a zero-value (non-nil, unloaded) store does not
produce the store-nil error: with an empty validator list `Validate` returns
the empty list, and with a non-empty list it evaluates the checkers per key,
refuting the claim for zero-value stores. -/
theorem C9_counterexample :
    Validate (some emptyCfg) [] = [] ∧
    Validate (some emptyCfg) [⟨"x", Empty, TypeValue.unit⟩] =
      ["Property x can\x27t be empty"] := by
  decide

/-- C9 (amended): `Validate` on a nil store, with any validator list, returns
the singleton store-nil error (the variant of the global wrapper naming the global
config), while a zero-value store is not nil and simply runs every
validator. -/
theorem C9_nil_store_validate :
    ∀ vs : List Validator,
      Validate none vs = ["Config is nil"] ∧
      GlobalValidate none vs = ["Global config struct is nil"] ∧
      Validate (some emptyCfg) vs = validateAll emptyCfg vs :=
  fun _ => ⟨rfl, rfl, rfl⟩

/-- C10: the `Equals` checker returns an error precisely when the
type-matched value of the key equals the constraint (int, float, bool and
string constraints), and nil when it differs — it asserts inequality, as on
the `fakeConfig` cases of `TestValidation`. -/
theorem C10_equals_checker_asserts_inequality :
    (∀ (cfg : Config) (k : String) (i : Int),
      (Equals cfg k (TypeValue.int i) ≠ none ↔ GetI (some cfg) k [] = i)) ∧
    (∀ (cfg : Config) (k : String) (q : Rat),
      (Equals cfg k (TypeValue.float q) ≠ none ↔ GetF (some cfg) k [] = q)) ∧
    (∀ (cfg : Config) (k : String) (b : Bool),
      (Equals cfg k (TypeValue.bool b) ≠ none ↔ GetB (some cfg) k [] = b)) ∧
    (∀ (cfg : Config) (k s : String),
      (Equals cfg k (TypeValue.str s) ≠ none ↔ GetS (some cfg) k [] = s)) ∧
    Equals fakeCfg "test:empty" (TypeValue.str "") ≠ none ∧
    Equals fakeCfg "test:string" (TypeValue.str "test") ≠ none ∧
    Equals fakeCfg "test:integer" (TypeValue.int 10) ≠ none ∧
    Equals fakeCfg "test:float" (TypeValue.float 10) ≠ none ∧
    Equals fakeCfg "test:boolean" (TypeValue.bool false) ≠ none ∧
    Equals fakeCfg "test:empty" (TypeValue.str "1") = none ∧
    Equals fakeCfg "test:string" (TypeValue.str "testtest") = none ∧
    Equals fakeCfg "test:integer" (TypeValue.int 15) = none ∧
    Equals fakeCfg "test:float" (TypeValue.float 130) = none ∧
    Equals fakeCfg "test:boolean" (TypeValue.bool true) = none := by
  refine ⟨?_, ?_, ?_, ?_, ?_⟩
  · intro cfg k i
    by_cases h : GetI (some cfg) k [] = i <;> simp [Equals, h]
  · intro cfg k q
    by_cases h : GetF (some cfg) k [] = q <;> simp [Equals, h]
  · intro cfg k b
    by_cases h : GetB (some cfg) k [] = b <;> simp [Equals, h]
  · intro cfg k s
    by_cases h : GetS (some cfg) k [] = s <;> simp [Equals, h]
  · decide

end Knf
